import Mathlib

/-!
Shallow embedding of the Intelligent Alert Escalation & Resolution System
(Node.js), covering the Alert entity (MoveInSync/Backend/models/Alert.js),
the RuleEngine and AlertService (src/Backend/test.js, appended service and
engine sources), and the AlertStorageManager (MoveInSync/Frontend/script.js,
appended backend source).

Modelling conventions:
- Timestamps are milliseconds since epoch as Nat; every place the source
  calls Date.now() receives an explicit `now : Nat` argument.
- The config/constants module is not under src/; the status and event-type
  constants are modelled from their use sites and the spec state machine as
  an inductive type and literal strings.
- Environment-derived configuration (ESCALATION_COOLDOWN_MINUTES,
  ALERT_EXPIRY_DAYS) is passed explicitly; the source defaults are the
  values 60 and 30.
- JavaScript float age arithmetic (getAge, day thresholds) is modelled
  exactly over Int milliseconds: age-in-days >= d is expressed as
  d * 86400000 <= now - timestamp.
- Metadata is an association list from string keys to JS primitive values;
  strict equality (===) on primitives is structural equality, and
  undefined === undefined is true, which is Option equality at none.
-/

/-- Alert lifecycle states, from ALERT_STATES in config/constants as used by
Alert.js and the state machine of the spec. -/
inductive Status where
  | OPEN
  | ESCALATED
  | AUTO_CLOSED
  | RESOLVED
  | EXPIRED
deriving DecidableEq, Repr

/-- JavaScript primitive metadata values compared with strict equality by the
rule engine. -/
inductive MetaVal where
  | vStr (s : String)
  | vBool (b : Bool)
  | vNum (n : Int)
deriving DecidableEq, Repr

/-- Alert metadata: an open mapping of string keys to values, as the plain JS
object alert.metadata. -/
def Metadata := List (String × MetaVal)
deriving DecidableEq, Repr

/-- Property access metadata[k]: the value under key k, or none when the key
is absent (JS undefined). -/
def lookupMeta (m : Metadata) (k : String) : Option MetaVal :=
  match m.find? (fun p => decide (p.1 = k)) with
  | some p => some p.2
  | none => none

/-- One entry of the append-only alert history, from Alert.addHistoryEvent. -/
structure HistoryEvent where
  action : String
  timestamp : Nat
  details : String
  previousStatus : Option Status
  previousSeverity : Option String
deriving DecidableEq, Repr

/-- The Alert entity, field for field from the Alert class constructor.
Severity is a plain string in the source (for example "MEDIUM"). -/
structure Alert where
  alertId : String
  sourceType : String
  severity : String
  timestamp : Nat
  status : Status
  metadata : Metadata
  history : List HistoryEvent
  resolution : Option String
  resolvedAt : Option Nat
  expiredAt : Option Nat
  lastEscalatedAt : Option Nat
  escalationCount : Nat
deriving DecidableEq, Repr

/-- Alert.addHistoryEvent: push one event onto the history. -/
def Alert.addHistoryEvent (a : Alert) (now : Nat) (action details : String)
    (previousStatus : Option Status) (previousSeverity : Option String) : Alert :=
  { a with history := a.history ++
      [{ action := action, timestamp := now, details := details,
         previousStatus := previousStatus, previousSeverity := previousSeverity }] }

/-- Alert.escalate(newSeverity, reason): set status ESCALATED, overwrite
severity and lastEscalatedAt, increment escalationCount, append the event. -/
def Alert.escalate (a : Alert) (now : Nat) (newSeverity reason : String) : Alert :=
  ({ a with
      status := Status.ESCALATED
      severity := newSeverity
      lastEscalatedAt := some now
      escalationCount := a.escalationCount + 1
   }).addHistoryEvent now "ESCALATED" reason (some a.status) (some a.severity)

/-- Alert.autoClose(reason). -/
def Alert.autoClose (a : Alert) (now : Nat) (reason : String) : Alert :=
  ({ a with status := Status.AUTO_CLOSED
   }).addHistoryEvent now "AUTO_CLOSED" reason (some a.status) none

/-- Alert.resolve(resolution): set status RESOLVED, record the resolution text
and resolvedAt; the event details default when the text is empty (JS falsy). -/
def Alert.resolve (a : Alert) (now : Nat) (resolution : String) : Alert :=
  ({ a with
      status := Status.RESOLVED
      resolution := some resolution
      resolvedAt := some now
   }).addHistoryEvent now "RESOLVED"
      (if resolution = "" then "Manually resolved" else resolution)
      (some a.status) none

/-- Alert.expire(): set status EXPIRED and expiredAt; the event details name
the configured expiry period. -/
def Alert.expire (a : Alert) (now expiryDays : Nat) : Alert :=
  ({ a with status := Status.EXPIRED, expiredAt := some now
   }).addHistoryEvent now "EXPIRED"
      s!"Alert expired after {expiryDays} days" (some a.status) none

/-- Alert.isActive(): status is not among RESOLVED, AUTO_CLOSED, EXPIRED. -/
def Alert.isActive (a : Alert) : Bool :=
  !(decide (a.status = Status.RESOLVED) || decide (a.status = Status.AUTO_CLOSED) ||
    decide (a.status = Status.EXPIRED))

/-- Alert.canEscalate(): true when never escalated, otherwise when strictly
more than cooldownMs elapsed since the last escalation (exact Int model of
the JS millisecond comparison). -/
def Alert.canEscalate (a : Alert) (now cooldownMs : Nat) : Bool :=
  match a.lastEscalatedAt with
  | none => true
  | some t => decide ((cooldownMs : Int) < (now : Int) - (t : Int))

/-- Alert.getAge() in milliseconds (the source divides by 86400000 to get
float days; thresholds are compared against the scaled value instead). -/
def Alert.getAgeMs (a : Alert) (now : Nat) : Int :=
  (now : Int) - (a.timestamp : Int)

/-- The Alert constructor on the creation path (no alertId in the incoming
data): status OPEN, severity defaulting to MEDIUM, timestamp now, empty
history plus the CREATED event. The uuid is passed in as alertId. -/
def newAlert (alertId sourceType : String) (severity : Option String)
    (metadata : Metadata) (now : Nat) : Alert :=
  ({ alertId := alertId
     sourceType := sourceType
     severity := severity.getD "MEDIUM"
     timestamp := now
     status := Status.OPEN
     metadata := metadata
     history := []
     resolution := none
     resolvedAt := none
     expiredAt := none
     lastEscalatedAt := none
     escalationCount := 0 } : Alert).addHistoryEvent now "CREATED" "Alert created" none none

/-- Per-source-type rule configuration, from the rule shape consumed by the
RuleEngine; absent fields are none, and the JS truthiness of a present zero
is handled at the use sites. -/
structure Rule where
  escalate_if_count : Option Nat
  window_mins : Option Nat
  escalate_if_days : Option Nat
  escalate_to_severity : String
  auto_close_if : Option String
deriving DecidableEq, Repr

/-- The rule configuration store: a JS object keyed by sourceType. -/
def RuleSet := List (String × Rule)
deriving DecidableEq, Repr

/-- this.rules[alert.sourceType]. -/
def lookupRule (rules : RuleSet) (sourceType : String) : Option Rule :=
  match rules.find? (fun p => decide (p.1 = sourceType)) with
  | some p => some p.2
  | none => none

/-- RuleEngine.getDefaultRules(). -/
def getDefaultRules : RuleSet :=
  [ ("overspeed",
      { escalate_if_count := some 3, window_mins := some 60,
        escalate_if_days := none, escalate_to_severity := "CRITICAL",
        auto_close_if := some "speed_normalized" }),
    ("feedback_negative",
      { escalate_if_count := some 2, window_mins := some 1440,
        escalate_if_days := none, escalate_to_severity := "HIGH",
        auto_close_if := some "feedback_resolved" }),
    ("compliance",
      { escalate_if_count := none, window_mins := none,
        escalate_if_days := some 7, escalate_to_severity := "HIGH",
        auto_close_if := some "document_valid" }),
    ("document_expiry",
      { escalate_if_count := none, window_mins := none,
        escalate_if_days := some 3, escalate_to_severity := "CRITICAL",
        auto_close_if := some "document_renewed" }),
    ("vehicle_maintenance",
      { escalate_if_count := none, window_mins := none,
        escalate_if_days := some 5, escalate_to_severity := "HIGH",
        auto_close_if := some "maintenance_completed" }),
    ("driver_fatigue",
      { escalate_if_count := some 1, window_mins := some 30,
        escalate_if_days := none, escalate_to_severity := "CRITICAL",
        auto_close_if := some "driver_rested" }) ]

/-- The actions produced by the rule engine; the source builds plain objects
with a type discriminant, a newStatus (carried but not read back by
executeAction), the target severity for escalations, and a reason. -/
inductive RuleAction where
  | escalate (newStatus : Status) (newSeverity : String) (reason : String)
  | auto_close (newStatus : Status) (reason : String)
deriving DecidableEq, Repr

/-- The count-in-window match predicate of checkEscalationRules: same
sourceType, active, timestamp at or after the window start, and sharing
driverId or vehicleId with the subject alert under strict equality
(undefined matches undefined). -/
def recentMatch (alert : Alert) (windowStart : Int) (a : Alert) : Bool :=
  decide (a.sourceType = alert.sourceType) &&
  a.isActive &&
  decide (windowStart ≤ (a.timestamp : Int)) &&
  (decide (lookupMeta a.metadata "driverId" = lookupMeta alert.metadata "driverId") ||
   decide (lookupMeta a.metadata "vehicleId" = lookupMeta alert.metadata "vehicleId"))

/-- The first block of RuleEngine.checkEscalationRules: count-based
escalation within the time window. A configured zero count or window is
JS-falsy and skips the block. -/
def checkCountEscalation (alert : Alert) (rule : Rule) (allAlerts : List Alert)
    (now : Nat) : Option RuleAction :=
  match rule.escalate_if_count, rule.window_mins with
  | some c, some w =>
    if c = 0 ∨ w = 0 then none
    else
      let windowStart : Int := (now : Int) - ((w * 60 * 1000 : Nat) : Int)
      let recentAlerts := allAlerts.filter (recentMatch alert windowStart)
      if c ≤ recentAlerts.length then
        let n := recentAlerts.length
        let st := alert.sourceType
        some (RuleAction.escalate Status.ESCALATED rule.escalate_to_severity
          s!"{n} {st} alerts in {w} minutes")
      else none
  | _, _ => none

/-- The second block of RuleEngine.checkEscalationRules: age-based escalation
for alerts still OPEN. A configured zero day threshold is JS-falsy. -/
def checkAgeEscalation (alert : Alert) (rule : Rule) (now : Nat) : Option RuleAction :=
  match rule.escalate_if_days with
  | some d =>
    if d ≠ 0 ∧ alert.status = Status.OPEN then
      if (d * 86400000 : Int) ≤ alert.getAgeMs now then
        let days := alert.getAgeMs now / 86400000
        some (RuleAction.escalate Status.ESCALATED rule.escalate_to_severity
          s!"Alert aged {days} days")
      else none
    else none
  | none => none

/-- RuleEngine.checkEscalationRules: the cooldown gate first (early return),
then the count-in-window block (its return short-circuits), then the
age-based block. -/
def checkEscalationRules (alert : Alert) (rule : Rule) (allAlerts : List Alert)
    (now cooldownMs : Nat) : Option RuleAction :=
  if alert.canEscalate now cooldownMs then
    match checkCountEscalation alert rule allAlerts now with
    | some act => some act
    | none => checkAgeEscalation alert rule now
  else none

/-- RuleEngine.checkAutoCloseRules: fires when metadata[key] is boolean true
or the string "true"; the extended arms for the three well-known keys
re-check the metadata field bearing the same name as the key. An empty
condition key is JS-falsy; metadata is always an object in this model. -/
def checkAutoCloseRules (alert : Alert) (rule : Rule) : Option RuleAction :=
  match rule.auto_close_if with
  | none => none
  | some condition =>
    if condition = "" then none
    else
      let v := lookupMeta alert.metadata condition
      let conditionValue :=
        decide (v = some (MetaVal.vBool true)) ||
        decide (v = some (MetaVal.vStr "true")) ||
        (decide (condition = "document_valid") &&
          decide (lookupMeta alert.metadata "document_valid" = some (MetaVal.vBool true))) ||
        (decide (condition = "document_renewed") &&
          decide (lookupMeta alert.metadata "document_renewed" = some (MetaVal.vBool true))) ||
        (decide (condition = "maintenance_completed") &&
          decide (lookupMeta alert.metadata "maintenance_completed" = some (MetaVal.vBool true)))
      if conditionValue then
        some (RuleAction.auto_close Status.AUTO_CLOSED
          s!"Auto-closed because {condition} condition met")
      else none

/-- RuleEngine.evaluateAlert: no rule means no action; otherwise escalation
rules are checked first and the first matching action wins. -/
def evaluateAlert (rules : RuleSet) (alert : Alert) (allAlerts : List Alert)
    (now cooldownMs : Nat) : Option RuleAction :=
  match lookupRule rules alert.sourceType with
  | none => none
  | some rule =>
    match checkEscalationRules alert rule allAlerts now cooldownMs with
    | some act => some act
    | none => checkAutoCloseRules alert rule


/-- The AlertService state observed through the storage abstraction under a
fixed backend: the collection of persisted alert records, keyed by alertId
(both the Redis keyspace and the in-memory Map behave as a keyed upsert
store; toJSON plus the rehydrating constructor round-trip every field
modelled here). -/
structure ServiceState where
  store : List Alert
deriving DecidableEq, Repr

/-- storageManager.saveAlert seen at the service level: upsert by alertId
(Map.set / redis SET under the alert id key). -/
def ServiceState.saveAlert (s : ServiceState) (a : Alert) : ServiceState :=
  if s.store.any (fun b => decide (b.alertId = a.alertId)) then
    ⟨s.store.map (fun b => if b.alertId = a.alertId then a else b)⟩
  else
    ⟨s.store ++ [a]⟩

/-- storageManager.getAlert(alertId) at the service level. -/
def ServiceState.getAlert (s : ServiceState) (alertId : String) : Option Alert :=
  s.store.find? (fun b => decide (b.alertId = alertId))

/-- AlertService.executeAction: dispatch on the action type. -/
def executeAction (alert : Alert) (action : RuleAction) (now : Nat) : Alert :=
  match action with
  | RuleAction.escalate _ newSeverity reason => alert.escalate now newSeverity reason
  | RuleAction.auto_close _ reason => alert.autoClose now reason

/-- AlertService.processAlert in the single-threaded interleaving the spec
assumes (the processingQueue in-flight guard passes: the id is inserted and
released within the call). The full snapshot is fetched, the rule engine is
consulted, and only when an action results is the mutated alert persisted.
Returns the new state together with the possibly-transitioned alert object
the caller holds. -/
def processAlert (rules : RuleSet) (now cooldownMs : Nat) (s : ServiceState)
    (alert : Alert) : ServiceState × Alert :=
  match evaluateAlert rules alert s.store now cooldownMs with
  | none => (s, alert)
  | some action =>
    let alert1 := executeAction alert action now
    (s.saveAlert alert1, alert1)

/-- AlertService.createAlert: construct the alert, persist it, then process it
immediately; the (externally generated) uuid arrives as alertId. -/
def createAlert (rules : RuleSet) (now cooldownMs : Nat) (s : ServiceState)
    (alertId sourceType : String) (severity : Option String)
    (metadata : Metadata) : ServiceState × Alert :=
  let alert := newAlert alertId sourceType severity metadata now
  let s1 := s.saveAlert alert
  processAlert rules now cooldownMs s1 alert

/-- AlertService.processAllAlerts: fetch all alerts, filter to the active
ones, and process each in turn (each call re-reads the evolving store). -/
def processAllAlerts (rules : RuleSet) (now cooldownMs : Nat)
    (s : ServiceState) : ServiceState :=
  (s.store.filter Alert.isActive).foldl
    (fun cur a => (processAlert rules now cooldownMs cur a).1) s

/-- AlertService.expireOldAlerts: expire and persist every active alert whose
timestamp lies strictly before now minus the retention period. -/
def expireOldAlerts (now expiryDays : Nat) (s : ServiceState) : ServiceState :=
  s.store.foldl
    (fun cur a =>
      if a.isActive ∧ (a.timestamp : Int) < (now : Int) - ((expiryDays * 24 * 60 * 60 * 1000 : Nat) : Int)
      then cur.saveAlert (a.expire now expiryDays)
      else cur) s

/-- AlertService.resolveAlert: fetch by id; when found, resolve
unconditionally and persist. -/
def resolveAlert (s : ServiceState) (alertId resolution : String)
    (now : Nat) : ServiceState × Option Alert :=
  match s.getAlert alertId with
  | none => (s, none)
  | some alert =>
    let alert1 := alert.resolve now resolution
    (s.saveAlert alert1, some alert1)

/-- One tick of the background reconciliation job: the re-evaluation sweep
followed by the expiry sweep. -/
def reconciliationPass (rules : RuleSet) (now cooldownMs expiryDays : Nat)
    (s : ServiceState) : ServiceState :=
  expireOldAlerts now expiryDays (processAllAlerts rules now cooldownMs s)

/-- Total number of history events across the store. -/
def totalHistory (s : ServiceState) : Nat :=
  (s.store.map (fun a => a.history.length)).sum

/-- AlertStorageManager state: the primary (Redis) record store and the
in-process fallback Map, each keyed by alertId. The driver and vehicle
secondary indices are omitted: they are best-effort and are not read by
getAllAlerts. -/
structure StorageState where
  redisStore : List Alert
  memoryStore : List Alert
deriving DecidableEq, Repr

/-- Keyed upsert shared by both backends. -/
def upsertById (l : List Alert) (a : Alert) : List Alert :=
  if l.any (fun b => decide (b.alertId = a.alertId)) then
    l.map (fun b => if b.alertId = a.alertId then a else b)
  else
    l ++ [a]

/-- AlertStorageManager.saveAlert: the backend is selected per call by the
current primary availability (redis.isConnected); the record goes to exactly
one backend. -/
def StorageState.saveAlert (st : StorageState) (redisConnected : Bool)
    (a : Alert) : StorageState :=
  if redisConnected then { st with redisStore := upsertById st.redisStore a }
  else { st with memoryStore := upsertById st.memoryStore a }

/-- AlertStorageManager.getAllAlerts: reads every record of the backend
selected by the current primary availability, and only that backend. -/
def StorageState.getAllAlerts (st : StorageState) (redisConnected : Bool) : List Alert :=
  if redisConnected then st.redisStore else st.memoryStore

/-! Concrete scenario data used by witnesses and counterexamples. -/

/-- Concrete RESOLVED compliance alert whose metadata auto-close trigger is
boolean true. -/
def cxResolved : Alert :=
  (newAlert "r1" "compliance" (some "MEDIUM")
    [("driverId", MetaVal.vStr "D3"), ("document_valid", MetaVal.vBool true)] 0).resolve 50 "done"

/-- An active overspeed alert sharing the store with cxResolved. -/
def cxOpen : Alert :=
  newAlert "o9" "overspeed" (some "MEDIUM") [("driverId", MetaVal.vStr "D3")] 30

/-- Concrete driver_fatigue alert: the default rule escalates at one alert in
thirty minutes, and its auto-close trigger driver_rested is already true. -/
def cxFatigue : Alert :=
  newAlert "a1" "driver_fatigue" (some "LOW")
    [("driverId", MetaVal.vStr "D1"), ("driver_rested", MetaVal.vBool true)] 900000

/-- Concrete alert saved while the primary is unavailable. -/
def cxStored : Alert := newAlert "s1" "overspeed" none [] 0

/-- Concrete escalated overspeed alert still inside the cooldown window at
time 300000 under the default sixty-minute cooldown. -/
def cxCooling : Alert :=
  { newAlert "w5" "overspeed" (some "CRITICAL") [("driverId", MetaVal.vStr "DRV001")] 100000 with
      status := Status.ESCALATED, lastEscalatedAt := some 290000, escalationCount := 1 }

def cxPeer1 : Alert :=
  newAlert "p1" "overspeed" (some "MEDIUM") [("driverId", MetaVal.vStr "DRV001")] 110000

def cxPeer2 : Alert :=
  newAlert "p2" "overspeed" (some "MEDIUM") [("driverId", MetaVal.vStr "DRV001")] 120000

/-- Concrete driver_fatigue alert for which both the escalation check and the
auto-close check individually fire under the default rules. -/
def cxBoth : Alert :=
  newAlert "w6" "driver_fatigue" (some "LOW")
    [("driverId", MetaVal.vStr "D6"), ("driver_rested", MetaVal.vBool true)] 1000

/-- Concrete compliance alert carrying its document-validity trigger under
the field name documentValid rather than the rule's key document_valid. -/
def cxRenamed : Alert :=
  newAlert "c1" "compliance" (some "MEDIUM") [("documentValid", MetaVal.vBool true)] 0

/-- Concrete compliance alert whose trigger sits under the exact key name. -/
def cxDocOk : Alert :=
  newAlert "c2" "compliance" (some "MEDIUM") [("document_valid", MetaVal.vBool true)] 0

/-- Concrete alert that is manually resolved twice. -/
def cxTwice : Alert := newAlert "b1" "overspeed" none [] 0

/-- The third overspeed alert for driver DRV001, joining cxPeer1 and cxPeer2
inside the sixty-minute window at time 300000. -/
def cxThird : Alert :=
  newAlert "p3" "overspeed" (some "MEDIUM") [("driverId", MetaVal.vStr "DRV001")] 130000

/-- Concrete identifier-less overspeed alerts. -/
def cxAnon1 : Alert := newAlert "n1" "overspeed" (some "MEDIUM") [] 1000

def cxAnon2 : Alert :=
  newAlert "n2" "overspeed" (some "MEDIUM") [("speed", MetaVal.vNum 90)] 2000

/-! Helper lemmas about the embedded operations. -/

theorem executeAction_alertId (a : Alert) (act : RuleAction) (now : Nat) :
    (executeAction a act now).alertId = a.alertId := by
  cases act <;> rfl

theorem processAlert_snd_alertId (rules : RuleSet) (now cooldownMs : Nat)
    (s : ServiceState) (alert : Alert) :
    (processAlert rules now cooldownMs s alert).2.alertId = alert.alertId := by
  unfold processAlert
  cases evaluateAlert rules alert s.store now cooldownMs with
  | none => rfl
  | some act => exact executeAction_alertId alert act now

theorem processAlert_fst_cases (rules : RuleSet) (now cooldownMs : Nat)
    (s : ServiceState) (alert : Alert) :
    (processAlert rules now cooldownMs s alert).1 = s ∨
    (processAlert rules now cooldownMs s alert).1 =
      s.saveAlert (processAlert rules now cooldownMs s alert).2 := by
  unfold processAlert
  cases evaluateAlert rules alert s.store now cooldownMs with
  | none => exact Or.inl rfl
  | some act => exact Or.inr rfl

theorem isActive_false_of_resolved (a : Alert) (h : a.status = Status.RESOLVED) :
    a.isActive = false := by
  simp [Alert.isActive, h]

theorem saveAlert_mem_of_ne (s : ServiceState) (a r : Alert)
    (h : r ∈ s.store) (hne : r.alertId ≠ a.alertId) :
    r ∈ (s.saveAlert a).store := by
  unfold ServiceState.saveAlert
  split
  · exact List.mem_map.mpr ⟨r, h, by rw [if_neg hne]⟩
  · exact List.mem_append_left _ h

theorem saveAlert_ids (s : ServiceState) (a : Alert)
    (h : a.alertId ∈ s.store.map Alert.alertId) :
    (s.saveAlert a).store.map Alert.alertId = s.store.map Alert.alertId := by
  obtain ⟨b, hb, hba⟩ := List.mem_map.mp h
  have hany : s.store.any (fun b => decide (b.alertId = a.alertId)) = true := by
    rw [List.any_eq_true]
    exact ⟨b, hb, decide_eq_true hba⟩
  unfold ServiceState.saveAlert
  rw [if_pos hany]
  simp only [List.map_map]
  apply List.map_congr_left
  intro x hx
  by_cases hxa : x.alertId = a.alertId
  · simp [hxa]
  · simp [hxa]

theorem mem_upsertById_self (l : List Alert) (a : Alert) : a ∈ upsertById l a := by
  unfold upsertById
  split
  · rename_i h
    rw [List.any_eq_true] at h
    obtain ⟨b, hb, hba⟩ := h
    exact List.mem_map.mpr ⟨b, hb, by rw [if_pos (of_decide_eq_true hba)]⟩
  · exact List.mem_append_right _ (List.mem_singleton.mpr rfl)

theorem foldl_process_mem (rules : RuleSet) (now cooldownMs : Nat) (r : Alert) :
    ∀ (l : List Alert) (s : ServiceState), r ∈ s.store →
      (∀ a ∈ l, a.alertId ≠ r.alertId) →
      r ∈ (l.foldl (fun cur a => (processAlert rules now cooldownMs cur a).1) s).store := by
  intro l
  induction l with
  | nil => intro s hmem _; exact hmem
  | cons a t ih =>
    intro s hmem hne
    simp only [List.foldl_cons]
    apply ih
    · rcases processAlert_fst_cases rules now cooldownMs s a with h1 | h1
      · rw [h1]; exact hmem
      · rw [h1]
        apply saveAlert_mem_of_ne _ _ _ hmem
        rw [processAlert_snd_alertId]
        exact fun hc => hne a (List.mem_cons_self a t) hc.symm
    · intro b hb; exact hne b (List.mem_cons_of_mem _ hb)

theorem foldl_process_ids (rules : RuleSet) (now cooldownMs : Nat) :
    ∀ (l : List Alert) (s : ServiceState),
      (∀ a ∈ l, a.alertId ∈ s.store.map Alert.alertId) →
      (l.foldl (fun cur a => (processAlert rules now cooldownMs cur a).1) s).store.map Alert.alertId =
        s.store.map Alert.alertId := by
  intro l
  induction l with
  | nil => intro s _; rfl
  | cons a t ih =>
    intro s hin
    simp only [List.foldl_cons]
    have hstep : (processAlert rules now cooldownMs s a).1.store.map Alert.alertId =
        s.store.map Alert.alertId := by
      rcases processAlert_fst_cases rules now cooldownMs s a with h1 | h1
      · rw [h1]
      · rw [h1]
        apply saveAlert_ids
        rw [processAlert_snd_alertId]
        exact hin a (List.mem_cons_self a t)
    rw [ih _ (by intro b hb; rw [hstep]; exact hin b (List.mem_cons_of_mem _ hb)), hstep]

theorem foldl_expire_mem (now expiryDays : Nat) (r : Alert) :
    ∀ (l : List Alert) (s : ServiceState), r ∈ s.store →
      (∀ a ∈ l, (a.isActive ∧ (a.timestamp : Int) < (now : Int) - ((expiryDays * 24 * 60 * 60 * 1000 : Nat) : Int)) →
        a.alertId ≠ r.alertId) →
      r ∈ (l.foldl (fun cur a =>
            if a.isActive ∧ (a.timestamp : Int) < (now : Int) - ((expiryDays * 24 * 60 * 60 * 1000 : Nat) : Int)
            then cur.saveAlert (a.expire now expiryDays) else cur) s).store := by
  intro l
  induction l with
  | nil => intro s hmem _; exact hmem
  | cons a t ih =>
    intro s hmem hne
    simp only [List.foldl_cons]
    apply ih
    · split
      · rename_i hcond
        apply saveAlert_mem_of_ne _ _ _ hmem
        exact fun hc => hne a (List.mem_cons_self a t) hcond hc.symm
      · exact hmem
    · intro b hb; exact hne b (List.mem_cons_of_mem _ hb)

theorem foldl_expire_ids (now expiryDays : Nat) :
    ∀ (l : List Alert) (s : ServiceState),
      (∀ a ∈ l, a.alertId ∈ s.store.map Alert.alertId) →
      (l.foldl (fun cur a =>
          if a.isActive ∧ (a.timestamp : Int) < (now : Int) - ((expiryDays * 24 * 60 * 60 * 1000 : Nat) : Int)
          then cur.saveAlert (a.expire now expiryDays) else cur) s).store.map Alert.alertId =
        s.store.map Alert.alertId := by
  intro l
  induction l with
  | nil => intro s _; rfl
  | cons a t ih =>
    intro s hin
    simp only [List.foldl_cons]
    have hstep : ((if a.isActive ∧ (a.timestamp : Int) < (now : Int) - ((expiryDays * 24 * 60 * 60 * 1000 : Nat) : Int)
        then s.saveAlert (a.expire now expiryDays) else s)).store.map Alert.alertId =
        s.store.map Alert.alertId := by
      split
      · apply saveAlert_ids
        exact hin a (List.mem_cons_self a t)
      · rfl
    rw [ih _ (by intro b hb; rw [hstep]; exact hin b (List.mem_cons_of_mem _ hb)), hstep]

theorem processAllAlerts_preserves_resolved (rules : RuleSet) (now cooldownMs : Nat)
    (s : ServiceState) (r : Alert)
    (hnd : (s.store.map Alert.alertId).Nodup)
    (hr : r ∈ s.store) (hres : r.status = Status.RESOLVED) :
    r ∈ (processAllAlerts rules now cooldownMs s).store ∧
    (processAllAlerts rules now cooldownMs s).store.map Alert.alertId =
      s.store.map Alert.alertId := by
  have hne : ∀ a ∈ s.store.filter Alert.isActive, a.alertId ≠ r.alertId := by
    intro a ha heq
    have ha1 : a ∈ s.store := List.mem_of_mem_filter ha
    have ha2 : a.isActive = true := List.of_mem_filter ha
    have : a = r := List.inj_on_of_nodup_map hnd ha1 hr heq
    rw [this, isActive_false_of_resolved r hres] at ha2
    exact Bool.false_ne_true ha2
  constructor
  · exact foldl_process_mem rules now cooldownMs r _ s hr hne
  · exact foldl_process_ids rules now cooldownMs _ s
      (fun a ha => List.mem_map.mpr ⟨a, List.mem_of_mem_filter ha, rfl⟩)

theorem expireOldAlerts_preserves_resolved (now expiryDays : Nat)
    (s : ServiceState) (r : Alert)
    (hnd : (s.store.map Alert.alertId).Nodup)
    (hr : r ∈ s.store) (hres : r.status = Status.RESOLVED) :
    r ∈ (expireOldAlerts now expiryDays s).store ∧
    (expireOldAlerts now expiryDays s).store.map Alert.alertId =
      s.store.map Alert.alertId := by
  have hne : ∀ a ∈ s.store,
      (a.isActive ∧ (a.timestamp : Int) < (now : Int) - ((expiryDays * 24 * 60 * 60 * 1000 : Nat) : Int)) →
      a.alertId ≠ r.alertId := by
    intro a ha hcond heq
    have : a = r := List.inj_on_of_nodup_map hnd ha hr heq
    have ha2 := hcond.1
    rw [this, isActive_false_of_resolved r hres] at ha2
    exact Bool.false_ne_true ha2
  constructor
  · exact foldl_expire_mem now expiryDays r _ s hr hne
  · exact foldl_expire_ids now expiryDays _ s
      (fun a ha => List.mem_map.mpr ⟨a, ha, rfl⟩)

/-! Claim C2. -/

/-- C2 (amended): resolve always succeeds and sets status RESOLVED regardless
of the current state; once RESOLVED, the re-evaluation sweep and the expiry
sweep never touch the alert again (the record survives the full
reconciliation pass unchanged, and it is the only record under its id), and
immediate evaluation on create only processes the newly created alert, so a
create with a fresh id leaves the resolved record in place. The exception
the counterexample forces: a direct on-demand processAlert call on a
RESOLVED alert can still transition it, since evaluateAlert never checks the
subject's active status. -/
theorem resolved_alert_survives_sweeps (rules : RuleSet)
    (now cooldownMs expiryDays : Nat) (s : ServiceState) (r : Alert)
    (hnd : (s.store.map Alert.alertId).Nodup)
    (hr : r ∈ s.store) (hres : r.status = Status.RESOLVED) :
    (∀ (a : Alert) (n : Nat) (txt : String), (a.resolve n txt).status = Status.RESOLVED) ∧
    r ∈ (reconciliationPass rules now cooldownMs expiryDays s).store ∧
    (∀ b ∈ (reconciliationPass rules now cooldownMs expiryDays s).store,
       b.alertId = r.alertId → b = r) ∧
    (∀ (newId srcT : String) (sev : Option String) (md : Metadata),
       newId ∉ s.store.map Alert.alertId →
       r ∈ (createAlert rules now cooldownMs s newId srcT sev md).1.store) := by
  obtain ⟨hmem1, hids1⟩ := processAllAlerts_preserves_resolved rules now cooldownMs s r hnd hr hres
  have hnd1 : ((processAllAlerts rules now cooldownMs s).store.map Alert.alertId).Nodup := by
    rw [hids1]; exact hnd
  obtain ⟨hmem2, hids2⟩ := expireOldAlerts_preserves_resolved now expiryDays
    (processAllAlerts rules now cooldownMs s) r hnd1 hmem1 hres
  have hnd2 : ((reconciliationPass rules now cooldownMs expiryDays s).store.map Alert.alertId).Nodup := by
    unfold reconciliationPass; rw [hids2]; exact hnd1
  refine ⟨fun a n txt => rfl, hmem2, ?_, ?_⟩
  · intro b hb heq
    exact List.inj_on_of_nodup_map hnd2 hb hmem2 heq
  · intro newId srcT sev md hfresh
    have hne : r.alertId ≠ newId := by
      intro hc
      exact hfresh (hc ▸ List.mem_map.mpr ⟨r, hr, rfl⟩)
    have hmemN : r ∈ (s.saveAlert (newAlert newId srcT sev md now)).store :=
      saveAlert_mem_of_ne s _ r hr hne
    unfold createAlert
    rcases processAlert_fst_cases rules now cooldownMs
        (s.saveAlert (newAlert newId srcT sev md now)) (newAlert newId srcT sev md now) with h1 | h1
    · rw [h1]; exact hmemN
    · rw [h1]
      apply saveAlert_mem_of_ne _ _ _ hmemN
      rw [processAlert_snd_alertId]
      exact hne

/-- C2 counterexample: a RESOLVED alert fed to the on-demand processAlert path
undergoes a further automatic transition: it is auto-closed, gaining a
history event and ending in status AUTO_CLOSED, against the claim that no
automatic transition can occur on a RESOLVED alert through any processing
path. -/
theorem resolved_alert_transitions_on_demand :
    cxResolved.status = Status.RESOLVED ∧
    (processAlert getDefaultRules 100 3600000 ⟨[cxResolved]⟩ cxResolved).2.status = Status.AUTO_CLOSED ∧
    (processAlert getDefaultRules 100 3600000 ⟨[cxResolved]⟩ cxResolved).2.history.length =
      cxResolved.history.length + 1 := by decide

/-- C2 witness: the sweep-preservation theorem applied to a concrete store
holding the resolved alert alongside an active one. -/
theorem resolved_alert_survives_sweeps_witness :
    cxResolved ∈ (reconciliationPass getDefaultRules 100 3600000 30 ⟨[cxResolved, cxOpen]⟩).store :=
  (resolved_alert_survives_sweeps getDefaultRules 100 3600000 30 ⟨[cxResolved, cxOpen]⟩ cxResolved
    (by decide) (by decide) (by decide)).2.1

/-! Claim C3. -/

/-- C3 (amended): both sweeps are safe no-ops on a store with no alerts, for
every rule set, instant and configuration; the double-pass part of the claim
fails: running the reconciliation pass twice in immediate succession can add
history events, because an alert escalated by the first pass whose
auto-close condition is true is auto-closed by the second pass (the
escalation check wins the first pass, the cooldown gate then blocks it and
lets the auto-close check fire). -/
theorem sweeps_noop_on_empty_store (rules : RuleSet) (now cooldownMs expiryDays : Nat) :
    processAllAlerts rules now cooldownMs ⟨[]⟩ = ⟨[]⟩ ∧
    expireOldAlerts now expiryDays ⟨[]⟩ = ⟨[]⟩ ∧
    reconciliationPass rules now cooldownMs expiryDays ⟨[]⟩ = ⟨[]⟩ :=
  ⟨rfl, rfl, rfl⟩

/-- C3 counterexample: with no new alerts, the second reconciliation pass adds
a history event and a state transition beyond those of the first pass: the
first pass escalates the alert, the second pass auto-closes it. -/
theorem second_pass_adds_history_event :
    totalHistory (reconciliationPass getDefaultRules 1000000 3600000 30 ⟨[cxFatigue]⟩) = 2 ∧
    totalHistory (reconciliationPass getDefaultRules 1000000 3600000 30
      (reconciliationPass getDefaultRules 1000000 3600000 30 ⟨[cxFatigue]⟩)) = 3 ∧
    (reconciliationPass getDefaultRules 1000000 3600000 30 ⟨[cxFatigue]⟩).store.map Alert.status =
      [Status.ESCALATED] ∧
    (reconciliationPass getDefaultRules 1000000 3600000 30
      (reconciliationPass getDefaultRules 1000000 3600000 30 ⟨[cxFatigue]⟩)).store.map Alert.status =
      [Status.AUTO_CLOSED] := by decide

/-! Claim C4. -/

/-- C4 (amended): getAll returns every alert held by the backend selected by
the primary's availability at call time: an alert saved while availability
is b is returned by a getAllAlerts issued under the same availability b.
Alerts written to the other backend are not returned while availability
differs from the availability at their save, as the counterexample shows. -/
theorem getAll_returns_alert_saved_on_current_backend (st : StorageState)
    (redisConnected : Bool) (a : Alert) :
    a ∈ (st.saveAlert redisConnected a).getAllAlerts redisConnected := by
  cases redisConnected <;>
    simp only [StorageState.saveAlert, StorageState.getAllAlerts,
      if_true, if_false, Bool.false_eq_true] <;>
    first
      | exact mem_upsertById_self st.memoryStore a
      | exact mem_upsertById_self st.redisStore a

/-- C4 counterexample: an alert saved through the storage abstraction while
the primary is down lands in the fallback store, and a getAll issued once
the primary is available again does not return it, against the claim that
getAll returns every saved alert regardless of the backend written to and
of the backend currently available. -/
theorem fallback_saved_alert_missing_from_getAll :
    cxStored ∈ (StorageState.saveAlert ⟨[], []⟩ false cxStored).memoryStore ∧
    (StorageState.saveAlert ⟨[], []⟩ false cxStored).getAllAlerts true = [] ∧
    cxStored ∉ (StorageState.saveAlert ⟨[], []⟩ false cxStored).getAllAlerts true := by decide

theorem checkCountEscalation_shape (alert : Alert) (rule : Rule) (allAlerts : List Alert)
    (now : Nat) (act : RuleAction)
    (h : checkCountEscalation alert rule allAlerts now = some act) :
    ∃ reason, act = RuleAction.escalate Status.ESCALATED rule.escalate_to_severity reason := by
  unfold checkCountEscalation at h
  rcases hc : rule.escalate_if_count with _ | c
  · rcases hw : rule.window_mins with _ | w <;> simp only [hc, hw] at h <;>
      exact Option.noConfusion h
  · rcases hw : rule.window_mins with _ | w
    · simp only [hc, hw] at h
      exact Option.noConfusion h
    · simp only [hc, hw] at h
      split at h
      · exact Option.noConfusion h
      · split at h
        · exact ⟨_, (Option.some.inj h).symm⟩
        · exact Option.noConfusion h

theorem checkAgeEscalation_shape (alert : Alert) (rule : Rule) (now : Nat) (act : RuleAction)
    (h : checkAgeEscalation alert rule now = some act) :
    ∃ reason, act = RuleAction.escalate Status.ESCALATED rule.escalate_to_severity reason := by
  unfold checkAgeEscalation at h
  rcases hd : rule.escalate_if_days with _ | d <;> simp only [hd] at h
  · exact Option.noConfusion h
  · split at h
    · split at h
      · exact ⟨_, (Option.some.inj h).symm⟩
      · exact Option.noConfusion h
    · exact Option.noConfusion h

theorem checkAutoCloseRules_shape (alert : Alert) (rule : Rule) (act : RuleAction)
    (h : checkAutoCloseRules alert rule = some act) :
    ∃ reason, act = RuleAction.auto_close Status.AUTO_CLOSED reason := by
  unfold checkAutoCloseRules at h
  rcases hk : rule.auto_close_if with _ | condition <;> simp only [hk] at h
  · exact Option.noConfusion h
  · split at h
    · exact Option.noConfusion h
    · split at h
      · exact ⟨_, (Option.some.inj h).symm⟩
      · exact Option.noConfusion h

theorem checkEscalationRules_shape (alert : Alert) (rule : Rule) (allAlerts : List Alert)
    (now cooldownMs : Nat) (act : RuleAction)
    (h : checkEscalationRules alert rule allAlerts now cooldownMs = some act) :
    ∃ reason, act = RuleAction.escalate Status.ESCALATED rule.escalate_to_severity reason := by
  unfold checkEscalationRules at h
  split at h
  · rcases hcc : checkCountEscalation alert rule allAlerts now with _ | act1 <;>
      simp only [hcc] at h
    · exact checkAgeEscalation_shape alert rule now act h
    · have heq := Option.some.inj h
      subst heq
      exact checkCountEscalation_shape alert rule allAlerts now act1 hcc
  · exact Option.noConfusion h

/-! Claim C5. -/

/-- C5: when the cooldown gate fails, the escalation check yields nothing for
any rule, and a full evaluation never yields an escalate action of any kind
(count-based or age-based), even when the count-in-window condition holds;
the skip is silent, evaluation simply proceeds to the auto-close check. -/
theorem cooldown_gate_blocks_all_escalation (alert : Alert) (allAlerts : List Alert)
    (now cooldownMs : Nat)
    (hcan : alert.canEscalate now cooldownMs = false) :
    (∀ rule : Rule, checkEscalationRules alert rule allAlerts now cooldownMs = none) ∧
    (∀ (rules : RuleSet) (st : Status) (sev reason : String),
       evaluateAlert rules alert allAlerts now cooldownMs ≠
         some (RuleAction.escalate st sev reason)) := by
  have h1 : ∀ rule : Rule, checkEscalationRules alert rule allAlerts now cooldownMs = none := by
    intro rule
    unfold checkEscalationRules
    rw [hcan]
    simp
  refine ⟨h1, ?_⟩
  intro rules st sev reason h
  unfold evaluateAlert at h
  rcases hr : lookupRule rules alert.sourceType with _ | rule <;> simp only [hr] at h
  · exact Option.noConfusion h
  · rw [h1 rule] at h
    obtain ⟨r2, hr2⟩ := checkAutoCloseRules_shape alert rule _ h
    exact RuleAction.noConfusion hr2

/-- C5 witness: the gate fails on the concrete cooling-down alert even though
the count-in-window condition holds (three matching alerts against the
default overspeed threshold of three), and no escalation of any kind is
emitted. -/
theorem cooldown_gate_blocks_all_escalation_witness :
    3 ≤ ((cxCooling :: cxPeer1 :: [cxPeer2]).filter
          (recentMatch cxCooling ((300000 : Int) - ((60 * 60 * 1000 : Nat) : Int)))).length ∧
    (∀ rule : Rule,
       checkEscalationRules cxCooling rule (cxCooling :: cxPeer1 :: [cxPeer2]) 300000 3600000 = none) :=
  ⟨by decide,
   (cooldown_gate_blocks_all_escalation cxCooling (cxCooling :: cxPeer1 :: [cxPeer2]) 300000 3600000
      (by decide)).1⟩

/-! Claim C6. -/

/-- C6: evaluation consults the escalation check first: any action it yields
is the result of the whole evaluation; only when it yields none does the
auto-close check decide the outcome; and when both checks would fire, the
evaluation yields exactly the escalation action and not the auto-close one,
so a single pass yields at most one action and never both escalates and
auto-closes. -/
theorem escalation_checked_before_autoclose (rules : RuleSet) (alert : Alert)
    (rule : Rule) (allAlerts : List Alert) (now cooldownMs : Nat)
    (hr : lookupRule rules alert.sourceType = some rule) :
    (∀ act, checkEscalationRules alert rule allAlerts now cooldownMs = some act →
       evaluateAlert rules alert allAlerts now cooldownMs = some act) ∧
    (checkEscalationRules alert rule allAlerts now cooldownMs = none →
       evaluateAlert rules alert allAlerts now cooldownMs = checkAutoCloseRules alert rule) ∧
    (∀ act1 act2, checkEscalationRules alert rule allAlerts now cooldownMs = some act1 →
       checkAutoCloseRules alert rule = some act2 →
       evaluateAlert rules alert allAlerts now cooldownMs = some act1 ∧
       evaluateAlert rules alert allAlerts now cooldownMs ≠ some act2) := by
  refine ⟨?_, ?_, ?_⟩
  · intro act h
    unfold evaluateAlert
    simp only [hr, h]
  · intro h
    unfold evaluateAlert
    simp only [hr, h]
  · intro act1 act2 h1 h2
    refine ⟨by unfold evaluateAlert; simp only [hr, h1], ?_⟩
    unfold evaluateAlert
    simp only [hr, h1]
    intro hc
    obtain ⟨r1, hr1⟩ := checkEscalationRules_shape alert rule allAlerts now cooldownMs _ h1
    obtain ⟨r2, hr2⟩ := checkAutoCloseRules_shape alert rule _ h2
    rw [hr1, hr2] at hc
    exact RuleAction.noConfusion (Option.some.inj hc)

/-- C6 witness: on the concrete alert where both checks fire, the evaluation
yields the escalation action. -/
theorem escalation_checked_before_autoclose_witness :
    evaluateAlert getDefaultRules cxBoth [cxBoth] 1000 3600000 =
      some (RuleAction.escalate Status.ESCALATED "CRITICAL"
        "1 driver_fatigue alerts in 30 minutes") :=
  (escalation_checked_before_autoclose getDefaultRules cxBoth
      { escalate_if_count := some 1, window_mins := some 30,
        escalate_if_days := none, escalate_to_severity := "CRITICAL",
        auto_close_if := some "driver_rested" }
      [cxBoth] 1000 3600000 (by decide)).1 _ (by decide)

/-! Claim C7. -/

/-- C7 (amended): for a rule naming any non-empty auto-close key, including
the three well-known ones, the auto-close check fires exactly when the
metadata field with the same name as the key holds boolean true or the
string "true": the extended arms for document validity, document renewal
and maintenance completion re-check the identically named field and are
redundant, so a boolean trigger expressed through a differently-named
metadata field is not recognized. -/
theorem autoclose_fires_iff_same_named_key (alert : Alert) (rule : Rule) (cond : String)
    (hk : rule.auto_close_if = some cond) (hne : cond ≠ "") :
    checkAutoCloseRules alert rule ≠ none ↔
      (lookupMeta alert.metadata cond = some (MetaVal.vBool true) ∨
       lookupMeta alert.metadata cond = some (MetaVal.vStr "true")) := by
  unfold checkAutoCloseRules
  simp only [hk]
  rw [if_neg hne]
  split
  · rename_i h
    simp only [Bool.or_eq_true, Bool.and_eq_true, decide_eq_true_eq] at h
    constructor
    · intro _
      rcases h with ((((h1 | h2) | ⟨hc3, h3⟩) | ⟨hc4, h4⟩) | ⟨hc5, h5⟩)
      · exact Or.inl h1
      · exact Or.inr h2
      · subst hc3; exact Or.inl h3
      · subst hc4; exact Or.inl h4
      · subst hc5; exact Or.inl h5
    · intro _
      simp
  · rename_i h
    constructor
    · intro hn
      exact absurd rfl hn
    · intro hrhs
      exfalso
      apply h
      simp only [Bool.or_eq_true, Bool.and_eq_true, decide_eq_true_eq]
      rcases hrhs with h1 | h2
      · exact Or.inl (Or.inl (Or.inl (Or.inl h1)))
      · exact Or.inl (Or.inl (Or.inl (Or.inr h2)))

/-- C7 counterexample: the alert whose metadata expresses the document
validity trigger through a differently-named field is not recognized: the
auto-close check and the full evaluation both yield nothing, against the
claim that such an alert still yields an auto-close action. -/
theorem renamed_trigger_field_not_recognized :
    lookupMeta cxRenamed.metadata "documentValid" = some (MetaVal.vBool true) ∧
    checkAutoCloseRules cxRenamed
      { escalate_if_count := none, window_mins := none, escalate_if_days := some 7,
        escalate_to_severity := "HIGH", auto_close_if := some "document_valid" } = none ∧
    evaluateAlert getDefaultRules cxRenamed [cxRenamed] 0 3600000 = none := by decide

/-- C7 witness: the amended characterization applied to the compliance rule
and an alert carrying the identically named boolean field. -/
theorem autoclose_fires_iff_same_named_key_witness :
    checkAutoCloseRules cxDocOk
      { escalate_if_count := none, window_mins := none, escalate_if_days := some 7,
        escalate_to_severity := "HIGH", auto_close_if := some "document_valid" } ≠ none :=
  (autoclose_fires_iff_same_named_key cxDocOk
      { escalate_if_count := none, window_mins := none, escalate_if_days := some 7,
        escalate_to_severity := "HIGH", auto_close_if := some "document_valid" }
      "document_valid" (by decide) (by decide)).mpr (Or.inl (by decide))

/-! Claim C8. -/

/-- C8 (amended): resolvedAt is written only by resolve and expiredAt only by
expire; escalate and autoClose leave both untouched, resolve leaves
expiredAt untouched and expire leaves resolvedAt untouched, and neither
timestamp is ever cleared back to none; but the timestamps are overwritten
when the corresponding transition is invoked again, since resolve is
callable at any time, as the counterexample shows. -/
theorem timestamps_written_only_by_own_transition (a : Alert)
    (now expiryDays : Nat) (sev reason txt : String) :
    ((a.escalate now sev reason).resolvedAt = a.resolvedAt ∧
     (a.escalate now sev reason).expiredAt = a.expiredAt) ∧
    ((a.autoClose now reason).resolvedAt = a.resolvedAt ∧
     (a.autoClose now reason).expiredAt = a.expiredAt) ∧
    ((a.resolve now txt).resolvedAt = some now ∧
     (a.resolve now txt).expiredAt = a.expiredAt) ∧
    ((a.expire now expiryDays).expiredAt = some now ∧
     (a.expire now expiryDays).resolvedAt = a.resolvedAt) :=
  ⟨⟨rfl, rfl⟩, ⟨rfl, rfl⟩, ⟨rfl, rfl⟩, ⟨rfl, rfl⟩⟩

/-- C8 counterexample: resolving the same alert a second time through the
service path overwrites resolvedAt (100 becomes 200) and appends a second
RESOLVED event, against the claim that resolvedAt is set exactly once and
never overwritten by any subsequent operation. -/
theorem second_resolve_overwrites_resolvedAt :
    ((resolveAlert ⟨[cxTwice]⟩ "b1" "first" 100).2.map Alert.resolvedAt = some (some 100)) ∧
    ((resolveAlert (resolveAlert ⟨[cxTwice]⟩ "b1" "first" 100).1 "b1" "second" 200).2.map
        Alert.resolvedAt = some (some 200)) ∧
    (((resolveAlert (resolveAlert ⟨[cxTwice]⟩ "b1" "first" 100).1 "b1" "second" 200).1.getAlert
        "b1").map (fun a => a.history.length) = some 3) := by decide

/-! Claim C1. -/

theorem checkCountEscalation_fires (alert : Alert) (rule : Rule) (allAlerts : List Alert)
    (now c w : Nat)
    (hc : rule.escalate_if_count = some c) (hc0 : c ≠ 0)
    (hw : rule.window_mins = some w) (hw0 : w ≠ 0)
    (hcount : c ≤ (allAlerts.filter
        (recentMatch alert ((now : Int) - ((w * 60 * 1000 : Nat) : Int)))).length) :
    ∃ reason, checkCountEscalation alert rule allAlerts now =
      some (RuleAction.escalate Status.ESCALATED rule.escalate_to_severity reason) := by
  unfold checkCountEscalation
  simp only [hc, hw]
  rw [if_neg (fun h => h.elim hc0 hw0), if_pos hcount]
  exact ⟨_, rfl⟩

/-- C1: when the subject alert's sourceType has a rule configuring a non-zero
count threshold and window, the snapshot holds at least that many matching
alerts (same sourceType, active, inside the trailing window, sharing
driverId or vehicleId), and the cooldown gate passes, evaluation yields an
escalate action to the rule's target severity, and processing the alert
against that snapshot transitions it to ESCALATED with that severity,
incrementing its escalation count. -/
theorem count_in_window_escalates (rules : RuleSet) (alert : Alert) (rule : Rule)
    (allAlerts : List Alert) (now cooldownMs c w : Nat)
    (hr : lookupRule rules alert.sourceType = some rule)
    (hc : rule.escalate_if_count = some c) (hc0 : c ≠ 0)
    (hw : rule.window_mins = some w) (hw0 : w ≠ 0)
    (hcan : alert.canEscalate now cooldownMs = true)
    (hcount : c ≤ (allAlerts.filter
        (recentMatch alert ((now : Int) - ((w * 60 * 1000 : Nat) : Int)))).length) :
    ∃ reason,
      evaluateAlert rules alert allAlerts now cooldownMs =
        some (RuleAction.escalate Status.ESCALATED rule.escalate_to_severity reason) ∧
      (processAlert rules now cooldownMs ⟨allAlerts⟩ alert).2.status = Status.ESCALATED ∧
      (processAlert rules now cooldownMs ⟨allAlerts⟩ alert).2.severity = rule.escalate_to_severity ∧
      (processAlert rules now cooldownMs ⟨allAlerts⟩ alert).2.escalationCount =
        alert.escalationCount + 1 := by
  obtain ⟨reason, hfire⟩ :=
    checkCountEscalation_fires alert rule allAlerts now c w hc hc0 hw hw0 hcount
  have hesc : checkEscalationRules alert rule allAlerts now cooldownMs =
      some (RuleAction.escalate Status.ESCALATED rule.escalate_to_severity reason) := by
    unfold checkEscalationRules
    simp only [hcan, if_true, hfire]
  have heval : evaluateAlert rules alert allAlerts now cooldownMs =
      some (RuleAction.escalate Status.ESCALATED rule.escalate_to_severity reason) := by
    unfold evaluateAlert
    simp only [hr, hesc]
  refine ⟨reason, heval, ?_, ?_, ?_⟩ <;>
    · unfold processAlert
      simp only [heval]
      rfl

/-- C1 witness: three same-driver overspeed alerts within the window under
the default overspeed rule (threshold three) make the third alert escalate
to the configured severity CRITICAL. -/
theorem count_in_window_escalates_witness :
    ∃ reason,
      evaluateAlert getDefaultRules cxThird [cxPeer1, cxPeer2, cxThird] 300000 3600000 =
        some (RuleAction.escalate Status.ESCALATED "CRITICAL" reason) ∧
      (processAlert getDefaultRules 300000 3600000 ⟨[cxPeer1, cxPeer2, cxThird]⟩ cxThird).2.status =
        Status.ESCALATED ∧
      (processAlert getDefaultRules 300000 3600000 ⟨[cxPeer1, cxPeer2, cxThird]⟩ cxThird).2.severity =
        "CRITICAL" ∧
      (processAlert getDefaultRules 300000 3600000 ⟨[cxPeer1, cxPeer2, cxThird]⟩ cxThird).2.escalationCount =
        cxThird.escalationCount + 1 :=
  count_in_window_escalates getDefaultRules cxThird
    { escalate_if_count := some 3, window_mins := some 60,
      escalate_if_days := none, escalate_to_severity := "CRITICAL",
      auto_close_if := some "speed_normalized" }
    [cxPeer1, cxPeer2, cxThird] 300000 3600000 3 60
    (by decide) (by decide) (by decide) (by decide) (by decide) (by decide) (by decide)

/-! Claim C9. -/

/-- C9: in the count-in-window filter, an alert lacking both driverId and
vehicleId matches any subject alert of the same sourceType that also lacks
both fields (absent compares equal to absent under strict equality), so
such identifier-less alerts count toward each other's escalation
threshold. -/
theorem identifierless_alerts_match (alert a : Alert) (windowStart : Int)
    (allAlerts : List Alert)
    (hsrc : a.sourceType = alert.sourceType)
    (hact : a.isActive = true)
    (hts : windowStart ≤ (a.timestamp : Int))
    (hd1 : lookupMeta a.metadata "driverId" = none)
    (hd2 : lookupMeta alert.metadata "driverId" = none)
    (hv1 : lookupMeta a.metadata "vehicleId" = none)
    (hv2 : lookupMeta alert.metadata "vehicleId" = none) :
    recentMatch alert windowStart a = true ∧
    (a ∈ allAlerts → a ∈ allAlerts.filter (recentMatch alert windowStart)) := by
  have h1 : recentMatch alert windowStart a = true := by
    unfold recentMatch
    simp [hsrc, hact, hts, hd1, hd2, hv1, hv2]
  exact ⟨h1, fun hmem => List.mem_filter.mpr ⟨hmem, h1⟩⟩

/-- C9 witness: the two unrelated identifier-less alerts match each other in
the filter. -/
theorem identifierless_alerts_match_witness :
    recentMatch cxAnon1 0 cxAnon2 = true ∧
    (cxAnon2 ∈ [cxAnon1, cxAnon2] → cxAnon2 ∈ [cxAnon1, cxAnon2].filter (recentMatch cxAnon1 0)) :=
  identifierless_alerts_match cxAnon1 cxAnon2 0 [cxAnon1, cxAnon2]
    (by decide) (by decide) (by decide) (by decide) (by decide) (by decide) (by decide)

/-! Claim C10. -/

/-- C10: createAlert persists the new alert before its immediate evaluation,
and the count-in-window filter does not exclude the subject alert, so under
a rule with a count threshold of one the lone newly created alert matches
itself and escalates on its first evaluation with no other alerts
present. -/
theorem lone_new_alert_self_escalates (rules : RuleSet) (alertId sourceType : String)
    (severity : Option String) (metadata : Metadata) (rule : Rule) (now cooldownMs w : Nat)
    (hr : lookupRule rules sourceType = some rule)
    (hc : rule.escalate_if_count = some 1)
    (hw : rule.window_mins = some w) (hw0 : w ≠ 0) :
    (createAlert rules now cooldownMs ⟨[]⟩ alertId sourceType severity metadata).2.status =
      Status.ESCALATED ∧
    (createAlert rules now cooldownMs ⟨[]⟩ alertId sourceType severity metadata).2.severity =
      rule.escalate_to_severity ∧
    (createAlert rules now cooldownMs ⟨[]⟩ alertId sourceType severity metadata).2.escalationCount = 1 := by
  have htime : ((newAlert alertId sourceType severity metadata now).timestamp : Int) = (now : Int) := rfl
  have hstat : (newAlert alertId sourceType severity metadata now).isActive = true := rfl
  have hmatch : recentMatch (newAlert alertId sourceType severity metadata now)
      ((now : Int) - ((w * 60 * 1000 : Nat) : Int))
      (newAlert alertId sourceType severity metadata now) = true := by
    unfold recentMatch
    simp [hstat]
    rw [htime]
    omega
  have hcount : 1 ≤ ([newAlert alertId sourceType severity metadata now].filter
      (recentMatch (newAlert alertId sourceType severity metadata now)
        ((now : Int) - ((w * 60 * 1000 : Nat) : Int)))).length := by
    rw [List.filter_cons_of_pos hmatch]
    exact Nat.le_refl 1
  obtain ⟨reason, hfire⟩ := checkCountEscalation_fires
    (newAlert alertId sourceType severity metadata now) rule
    [newAlert alertId sourceType severity metadata now] now 1 w hc one_ne_zero hw hw0 hcount
  have hcan : (newAlert alertId sourceType severity metadata now).canEscalate now cooldownMs = true := rfl
  have hesc : checkEscalationRules (newAlert alertId sourceType severity metadata now) rule
      [newAlert alertId sourceType severity metadata now] now cooldownMs =
      some (RuleAction.escalate Status.ESCALATED rule.escalate_to_severity reason) := by
    unfold checkEscalationRules
    simp only [hcan, if_true, hfire]
  have hsrc : (newAlert alertId sourceType severity metadata now).sourceType = sourceType := rfl
  have heval : evaluateAlert rules (newAlert alertId sourceType severity metadata now)
      [newAlert alertId sourceType severity metadata now] now cooldownMs =
      some (RuleAction.escalate Status.ESCALATED rule.escalate_to_severity reason) := by
    unfold evaluateAlert
    rw [hsrc]
    simp only [hr, hesc]
  have hstep : createAlert rules now cooldownMs ⟨[]⟩ alertId sourceType severity metadata =
      processAlert rules now cooldownMs ⟨[newAlert alertId sourceType severity metadata now]⟩
        (newAlert alertId sourceType severity metadata now) := rfl
  rw [hstep]
  unfold processAlert
  simp only [heval]
  exact ⟨rfl, rfl, rfl⟩

/-- C10 witness: under the default driver_fatigue rule (threshold one inside
thirty minutes), a lone freshly created alert comes back ESCALATED at
severity CRITICAL with escalation count one. -/
theorem lone_new_alert_self_escalates_witness :
    (createAlert getDefaultRules 500000 3600000 ⟨[]⟩ "n1" "driver_fatigue" (some "LOW")
      [("driverId", MetaVal.vStr "D9")]).2.status = Status.ESCALATED ∧
    (createAlert getDefaultRules 500000 3600000 ⟨[]⟩ "n1" "driver_fatigue" (some "LOW")
      [("driverId", MetaVal.vStr "D9")]).2.severity = "CRITICAL" ∧
    (createAlert getDefaultRules 500000 3600000 ⟨[]⟩ "n1" "driver_fatigue" (some "LOW")
      [("driverId", MetaVal.vStr "D9")]).2.escalationCount = 1 :=
  lone_new_alert_self_escalates getDefaultRules "n1" "driver_fatigue" (some "LOW")
    [("driverId", MetaVal.vStr "D9")]
    { escalate_if_count := some 1, window_mins := some 30,
      escalate_if_days := none, escalate_to_severity := "CRITICAL",
      auto_close_if := some "driver_rested" }
    500000 3600000 30 (by decide) (by decide) (by decide) (by decide)
